import Mathlib

/-!
Verification of the htmx-ssr server lifecycle core
(`src/htmx-ssr/src/server/mod.rs`) against its specification.

The Rust code is shallowly embedded: ambient effects (environment
variables, the external URI parser of the `http` crate, the OS socket
API, the axum accept loop, the tokio signal registration) are passed in
as explicit parameters describing their observable outcome, and the
functions of `mod.rs` are translated line by line over those parameters.
-/

namespace HtmxSsr

/-- Abstract diagnostic produced by the external `http` crate URI parser
(`http::uri::InvalidUri`). Its content is opaque to this crate; we only
ever carry it along, so a string token suffices. -/
def InvalidUri := String

instance : DecidableEq InvalidUri := fun a b => String.decEq a b

/-- Abstract `std::io::Error` token. The code never inspects it, only
wraps and propagates it. -/
def IoError := String

instance : DecidableEq IoError := fun a b => String.decEq a b

/-- Model of `http::Uri` restricted to the components this crate's logic
observes: the scheme and the authority (host:port). -/
structure Uri where
  scheme : String
  authority : String
deriving DecidableEq, Repr

/-- Model of `std::net::SocketAddr`: a host and a port. -/
structure SocketAddr where
  host : String
  port : Nat
deriving DecidableEq, Repr

/-- `Display` of a socket address, as used by the `http://<bound_addr>`
synthesis: `host:port`. -/
def SocketAddr.render (a : SocketAddr) : String :=
  a.host ++ ":" ++ toString a.port

/-- `ServerOptions` (mod.rs lines 8-21): the only field is the optional
base HTTP URL. -/
structure ServerOptions where
  base_url : Option Uri := none
deriving DecidableEq, Repr

/-- `ServerOptionsFromEnvError` (mod.rs lines 24-46): `NotUnicode`
carries only the variable name; `BaseUrl` carries the variable name, the
raw string read from the environment, and the underlying parse error. -/
inductive ServerOptionsFromEnvError where
  | NotUnicode (name : String)
  | BaseUrl (name : String) (url : String) (err : InvalidUri)
deriving DecidableEq

/-- Outcome of `std::env::var(name)`: `Ok(value)`, or one of the two
`std::env::VarError` variants. -/
inductive EnvVarResult where
  | ok (value : String)
  | notPresent
  | notUnicode
deriving DecidableEq, Repr

/-- An environment: what `std::env::var` answers for each variable name. -/
def Environment := String → EnvVarResult

/-- `ServerOptions::HTMX_SSR_BASE_URL` (mod.rs line 50). -/
def ServerOptions.HTMX_SSR_BASE_URL : String := "HTMX_SSR_BASE_URL"

/-- `ServerOptions::env_var` (mod.rs lines 52-60): an empty value and an
absent variable both become `Ok(None)`; a non-unicode value becomes the
`NotUnicode` error carrying the variable name. -/
def ServerOptions.env_var (env : Environment) (name : String) :
    Except ServerOptionsFromEnvError (Option String) :=
  match env name with
  | .ok value => .ok (if value.isEmpty then none else some value)
  | .notPresent => .ok none
  | .notUnicode => .error (.NotUnicode name)

/-- `ServerOptions::from_env` (mod.rs lines 63-93), parameterized by the
external URI parser `url.parse()` of the `http` crate. A present value is
parsed; a parse failure is wrapped as `BaseUrl` with the variable name,
the raw string and the parser's error. (The tracing calls are pure
observability and are not modelled.) -/
def ServerOptions.from_env (parseUri : String → Except InvalidUri Uri)
    (env : Environment) :
    Except ServerOptionsFromEnvError ServerOptions :=
  match ServerOptions.env_var env ServerOptions.HTMX_SSR_BASE_URL with
  | .error e => .error e
  | .ok none => .ok { base_url := none }
  | .ok (some url) =>
    match parseUri url with
    | .ok u => .ok { base_url := some u }
    | .error err => .error (.BaseUrl ServerOptions.HTMX_SSR_BASE_URL url err)

/-- The effective server state shared with request handlers. Only the
resolved base URL is relevant to the verified claims. -/
structure ServerState where
  base_url : Uri
deriving DecidableEq, Repr

/-- Modelled from the spec: `ServerState::new` lives in
`src/htmx-ssr/src/server/state.rs`, which is not part of the provided
sources; only its call site in `Server::serve` is. Per the spec's
resolution contract: if `options.base_url` is set it is used verbatim
with no validation against the bound address; otherwise a URL of the
form `http://<bound_addr>` is synthesized from the listener's local
address, with the unsecured `http` scheme unconditionally. -/
def ServerState.new (options : ServerOptions) (local_addr : SocketAddr) :
    ServerState :=
  match options.base_url with
  | some u => { base_url := u }
  | none => { base_url := { scheme := "http", authority := local_addr.render } }

/-- Severity of a tracing log record. -/
inductive LogLevel where
  | info
  | error
deriving DecidableEq, Repr

/-- A tracing log record emitted by the shutdown-signal future. -/
structure LogEvent where
  level : LogLevel
  message : String
deriving DecidableEq, Repr

/-- Observable behaviour of a graceful-shutdown signal future: the log
records it emits, and whether it ever resolves. When an armed signal
future resolves, the axum accept loop stops accepting new connections
and begins the graceful drain. -/
structure SignalFuture where
  logs : List LogEvent
  resolves : Bool
deriving DecidableEq, Repr

/-- The `Server` builder (mod.rs lines 102-114), polymorphic in the
listener and router handle types (both are opaque to the lifecycle
logic). The shutdown signal is modelled by its observable behaviour. -/
structure Server (L R : Type) where
  listener : L
  router : R
  graceful_shutdown : Option SignalFuture
  options : ServerOptions

/-- `Server::new` (mod.rs lines 139-150): default router, no shutdown
signal, default options. -/
def Server.new {L R : Type} [Inhabited R] (listener : L) : Server L R :=
  { listener
    router := default
    graceful_shutdown := none
    options := {} }

/-- `Server::with_router` (mod.rs lines 160-163). -/
def Server.with_router {L R : Type} (s : Server L R) (router : R) :
    Server L R :=
  { s with router }

/-- `Server::with_options` (mod.rs lines 171-174). -/
def Server.with_options {L R : Type} (s : Server L R)
    (options : ServerOptions) : Server L R :=
  { s with options }

/-- `Server::with_options_from_env` (mod.rs lines 177-181): delegates to
`ServerOptions::from_env` and propagates its error. -/
def Server.with_options_from_env {L R : Type} (s : Server L R)
    (parseUri : String → Except InvalidUri Uri) (env : Environment) :
    Except ServerOptionsFromEnvError (Server L R) :=
  match ServerOptions.from_env parseUri env with
  | .error e => .error e
  | .ok options => .ok { s with options }

/-- `Server::with_graceful_shutdown` (mod.rs lines 199-205). -/
def Server.with_graceful_shutdown {L R : Type} (s : Server L R)
    (signal : SignalFuture) : Server L R :=
  { s with graceful_shutdown := some signal }

/-- The future built by `Server::with_ctrl_c_graceful_shutdown`
(mod.rs lines 209-219), as a function of the outcome of
`tokio::signal::ctrl_c()`: it logs, awaits the registration, logs an
error if registration failed, then logs receipt and returns. In both
branches the async block runs to completion, so the future resolves. -/
def ctrl_c_signal_future (registration : Except IoError Unit) :
    SignalFuture :=
  { logs :=
      { level := .info
        message := "Listening for ctrl-c signal for graceful shutdown..." } ::
      (match registration with
       | .error _ =>
         [{ level := .error
            message := "Failed to register for ctrl-c signal" }]
       | .ok _ => []) ++
      [{ level := .info
         message := "Received ctrl-c signal, shutting down gracefully." }]
    resolves := true }

/-- `Server::with_ctrl_c_graceful_shutdown` (mod.rs lines 209-219). -/
def Server.with_ctrl_c_graceful_shutdown {L R : Type} (s : Server L R)
    (registration : Except IoError Unit) : Server L R :=
  s.with_graceful_shutdown (ctrl_c_signal_future registration)

/-- Whether, under axum's `with_graceful_shutdown` contract, a graceful
shutdown begins during this run: it does exactly when an armed signal
future resolves. -/
def Server.gracefulShutdownBegins {L R : Type} (s : Server L R) : Bool :=
  match s.graceful_shutdown with
  | some f => f.resolves
  | none => false

/-- `ServeError` (mod.rs lines 126-135). -/
inductive ServeError where
  | Io (e : IoError)
  | LocalAddr (e : IoError)
deriving DecidableEq

/-- Steps of `Server::serve` observable after the local address is
obtained: resolving the effective state, and handing the listener and
routes to the axum accept loop. -/
inductive ServeEvent where
  | stateResolved
  | handedToAcceptLoop
deriving DecidableEq, Repr

/-- How the axum accept/dispatch loop run terminates: with an I/O error,
or by completing the graceful drain after an armed shutdown signal
resolved. The latter is only reachable when a signal is armed and
resolves (`Server.gracefulShutdownBegins`). -/
inductive AcceptTermination where
  | ioError (e : IoError)
  | gracefulDrain
deriving DecidableEq

/-- `Server::serve` (mod.rs lines 222-239), parameterized by the outcome
of `listener.local_addr()` and by the termination of the axum accept
loop. Returns the result together with the trace of observable steps:
on a `local_addr` failure the error is wrapped as `LocalAddr` and
nothing further happens; otherwise the state is resolved, the loop runs,
and an accept-loop I/O error is wrapped as `Io` via `map_err`. -/
def Server.serve {L R : Type} (s : Server L R)
    (localAddrResult : Except IoError SocketAddr)
    (termination : AcceptTermination) :
    Except ServeError Unit × List ServeEvent :=
  match localAddrResult with
  | .error e => (.error (.LocalAddr e), [])
  | .ok local_addr =>
    let _state := ServerState.new s.options local_addr
    let result : Except ServeError Unit :=
      match termination with
      | .ioError e => .error (.Io e)
      | .gracefulDrain => .ok ()
    (result, [.stateResolved, .handedToAcceptLoop])

/-! Concrete instances used by the witness theorems. -/

/-- A URI parser that rejects every input (its diagnostic echoes the input). -/
def parseReject : String → Except InvalidUri Uri := fun s => Except.error s

/-- An environment with no variable set. -/
def envAbsent : Environment := fun _ => .notPresent

/-- An environment where every variable is set to the empty string. -/
def envEmpty : Environment := fun _ => .ok ""

/-- An environment where every variable is set to a non-URI string. -/
def envBad : Environment := fun _ => .ok "not a url"

/-- An environment where every variable holds non-unicode data. -/
def envNotUnicode : Environment := fun _ => .notUnicode

/-- A concrete server with no shutdown signal armed. -/
def serverW : Server Nat Nat :=
  { listener := 0, router := 0, graceful_shutdown := none, options := {} }

/-- A concrete bound socket address. -/
def addrW : SocketAddr := { host := "127.0.0.1", port := 8080 }

/-- Claim C1: for every `ServerOptions` whose `base_url` is `Some u` and
every bound socket address `a`, the resolved effective server state has
`base_url = u` unchanged; the bound address is ignored and `u` is not
validated against it. -/
theorem C1_explicit_base_url_used_verbatim (u : Uri) (a : SocketAddr) :
    (ServerState.new { base_url := some u } a).base_url = u := rfl

/-- Claim C2: for every `ServerOptions` whose `base_url` is `None` and
every bound socket address `a`, the resolved effective server state has
base URL `http://<a>`: the scheme is unconditionally `http` and the
authority is exactly `a`'s host and port. -/
theorem C2_fallback_synthesizes_http_authority (a : SocketAddr) :
    (ServerState.new { base_url := none } a).base_url =
      { scheme := "http", authority := a.host ++ ":" ++ toString a.port } := rfl

/-- Claim C3: for every environment in which `HTMX_SSR_BASE_URL` is
absent or set to the empty string, `ServerOptions::from_env` returns
`Ok` with `base_url = None` — the two cases are treated identically and
neither is an error. -/
theorem C3_absent_or_empty_is_ok_none
    (parseUri : String → Except InvalidUri Uri) (env : Environment)
    (h : env ServerOptions.HTMX_SSR_BASE_URL = .notPresent ∨
         env ServerOptions.HTMX_SSR_BASE_URL = .ok "") :
    ServerOptions.from_env parseUri env = .ok { base_url := none } := by
  unfold ServerOptions.from_env ServerOptions.env_var
  rcases h with h | h
  · rw [h]
  · rw [h]
    rfl

/-- Witness for C3: both an absent variable and an empty-string variable
concretely yield `Ok { base_url := none }`. -/
theorem C3_witness :
    ServerOptions.from_env parseReject envAbsent = .ok { base_url := none } ∧
    ServerOptions.from_env parseReject envEmpty = .ok { base_url := none } :=
  ⟨C3_absent_or_empty_is_ok_none parseReject envAbsent (Or.inl rfl),
   C3_absent_or_empty_is_ok_none parseReject envEmpty (Or.inr rfl)⟩

/-- Claim C4: for every environment in which `HTMX_SSR_BASE_URL` holds a
non-empty value that the URI parser rejects, `ServerOptions::from_env`
returns the `BaseUrl` error carrying exactly the variable name, the raw
string as read, and the underlying parse error. -/
theorem C4_parse_failure_is_typed_base_url_error
    (parseUri : String → Except InvalidUri Uri) (env : Environment)
    (v : String) (e : InvalidUri)
    (hv : env ServerOptions.HTMX_SSR_BASE_URL = .ok v) (hne : v ≠ "")
    (hp : parseUri v = .error e) :
    ServerOptions.from_env parseUri env =
      .error (.BaseUrl ServerOptions.HTMX_SSR_BASE_URL v e) := by
  have hne' : v.isEmpty = false := by
    cases hb : v.isEmpty with
    | false => rfl
    | true => exact absurd ((String.isEmpty_iff v).mp hb) hne
  unfold ServerOptions.from_env ServerOptions.env_var
  rw [hv]
  simp [hne', hp]

/-- Witness for C4: the string `not a url`, rejected by the parser,
yields the `BaseUrl` error with the variable name, the raw string and
the parser's diagnostic. -/
theorem C4_witness :
    ServerOptions.from_env parseReject envBad =
      .error (.BaseUrl ServerOptions.HTMX_SSR_BASE_URL "not a url"
        "not a url") :=
  C4_parse_failure_is_typed_base_url_error parseReject envBad
    "not a url" "not a url" rfl (by decide) rfl

/-- Claim C5: for every environment in which the value of
`HTMX_SSR_BASE_URL` is not valid unicode, `ServerOptions::from_env`
returns the distinct `NotUnicode` error carrying only the variable name
(the constructor has no field for the raw bytes or an underlying
cause). -/
theorem C5_not_unicode_is_distinct_error
    (parseUri : String → Except InvalidUri Uri) (env : Environment)
    (h : env ServerOptions.HTMX_SSR_BASE_URL = .notUnicode) :
    ServerOptions.from_env parseUri env =
      .error (.NotUnicode ServerOptions.HTMX_SSR_BASE_URL) := by
  unfold ServerOptions.from_env ServerOptions.env_var
  rw [h]

/-- Witness for C5: a concretely non-unicode environment value yields
the `NotUnicode` error naming the variable. -/
theorem C5_witness :
    ServerOptions.from_env parseReject envNotUnicode =
      .error (.NotUnicode ServerOptions.HTMX_SSR_BASE_URL) :=
  C5_not_unicode_is_distinct_error parseReject envNotUnicode rfl

/-- Claim C6 (code evaluated at the failing input): when registering the
ctrl-c listener fails, the shutdown future does log an error, but it
then falls through and resolves anyway, so with it armed a graceful
shutdown begins — contrary to the claim that the failure leaves the
server running without the shutdown trigger armed. -/
theorem C6_registration_failure_still_triggers_shutdown :
    (ctrl_c_signal_future (.error "registration failed")).resolves = true ∧
    ({ level := .error, message := "Failed to register for ctrl-c signal" } ∈
      (ctrl_c_signal_future (.error "registration failed")).logs) ∧
    ((serverW.with_ctrl_c_graceful_shutdown
        (.error "registration failed")).gracefulShutdownBegins = true) := by
  refine ⟨rfl, ?_, rfl⟩
  simp [ctrl_c_signal_future]

/-- Claim C7: if querying the listener's bound local address fails,
`serve` returns the error wrapped as `ServeError::LocalAddr` (not `Io`),
terminally, with an empty step trace: no state is resolved and the
listener and routes are never handed to the accept loop. -/
theorem C7_local_addr_failure_is_terminal (L R : Type) (s : Server L R)
    (e : IoError) (t : AcceptTermination) :
    s.serve (.error e) t = (.error (.LocalAddr e), []) := rfl

/-- Claim C8: with no shutdown signal registered (so that, by axum's
contract, a graceful drain cannot begin), `serve` returns only when the
accept loop itself terminates, and that termination is an I/O failure
surfaced as `ServeError::Io` without retry; `serve` never returns
`Ok(())` on its own. -/
theorem C8_no_signal_returns_only_on_io_failure (L R : Type)
    (s : Server L R) (a : SocketAddr) (t : AcceptTermination)
    (hnone : s.graceful_shutdown = none)
    (ht : t = .gracefulDrain → s.gracefulShutdownBegins = true) :
    match t with
    | .ioError e => (s.serve (.ok a) t).1 = .error (.Io e)
    | .gracefulDrain => False := by
  cases t with
  | ioError e => rfl
  | gracefulDrain =>
    exact absurd (ht rfl) (by simp [Server.gracefulShutdownBegins, hnone])

/-- Witness for C8: a concrete signal-free server whose accept loop
fails with an I/O error has `serve` surface it as `ServeError::Io`. -/
theorem C8_witness :
    (serverW.serve (.ok addrW) (.ioError "econnreset")).1 =
      .error (.Io "econnreset") :=
  C8_no_signal_returns_only_on_io_failure Nat Nat serverW addrW
    (.ioError "econnreset") rfl (fun h => AcceptTermination.noConfusion h)

/-- Claim C10: each builder setter replaces only its own field:
`with_router` only `router`, `with_options` and `with_options_from_env`
only `options`, `with_graceful_shutdown` only `graceful_shutdown`; the
listener and all remaining fields are exactly those of the input. -/
theorem C10_builder_setters_frame (L R : Type) (s : Server L R) (r : R)
    (o : ServerOptions) (sig : SignalFuture)
    (parseUri : String → Except InvalidUri Uri) (env : Environment) :
    ((s.with_router r).listener = s.listener ∧
     (s.with_router r).graceful_shutdown = s.graceful_shutdown ∧
     (s.with_router r).options = s.options ∧
     (s.with_router r).router = r) ∧
    ((s.with_options o).listener = s.listener ∧
     (s.with_options o).router = s.router ∧
     (s.with_options o).graceful_shutdown = s.graceful_shutdown ∧
     (s.with_options o).options = o) ∧
    ((s.with_graceful_shutdown sig).listener = s.listener ∧
     (s.with_graceful_shutdown sig).router = s.router ∧
     (s.with_graceful_shutdown sig).options = s.options ∧
     (s.with_graceful_shutdown sig).graceful_shutdown = some sig) ∧
    (match s.with_options_from_env parseUri env with
     | .ok s' => s'.listener = s.listener ∧ s'.router = s.router ∧
         s'.graceful_shutdown = s.graceful_shutdown ∧
         Except.ok s'.options = ServerOptions.from_env parseUri env
     | .error _ => True) := by
  refine ⟨⟨rfl, rfl, rfl, rfl⟩, ⟨rfl, rfl, rfl, rfl⟩,
    ⟨rfl, rfl, rfl, rfl⟩, ?_⟩
  unfold Server.with_options_from_env
  cases h : ServerOptions.from_env parseUri env with
  | ok o' => exact ⟨rfl, rfl, rfl, rfl⟩
  | error e => trivial

end HtmxSsr
